import Mathlib

/-!
Verification of the `kplr` client library (`kplr/api.py`) against its
natural-language specification.  The Python code is shallowly embedded:
dictionaries become association lists, exceptions become `Except`, the
network and the file system become explicit parameters/state, and the
handful of Python builtins the code relies on (`int(...)`, `float(...)`,
`str.split`, `urllib.quote_plus`, ...) are modelled by structurally
recursive Lean functions so that every definition evaluates by `rfl`.
Floating point values never participate in arithmetic in the code paths
under study, so a float is represented by the literal that produced it.
-/

namespace Kplr

/-! ## Value domain -/

/-- Result values produced by `API._munge_dict`: Python ints, floats
(kept as the literal that parsed, since no float arithmetic occurs),
strings, and `None`. -/
inductive PyVal where
  | vInt (n : Int)
  | vFloat (lit : String)
  | vStr (s : String)
  | vNone
deriving DecidableEq

/-- Python `str()` of a value, as used when a value is formatted into a
query string or an error message. -/
def pyValStr : PyVal → String
  | .vInt n => toString n
  | .vFloat lit => lit
  | .vStr s => s
  | .vNone => "None"

/-- The apostrophe character, used in several literal strings of `api.py`. -/
def sq : String := String.mk [Char.ofNat 39]

/-! ## Models of the Python string builtins

All of them are structurally recursive over `List Char` so that they
reduce inside the kernel. -/

/-- Whitespace stripped by Python `str.strip()` (as called by `int()` /
`float()` on their argument). -/
def isPySpace (c : Char) : Bool :=
  c = ' ' || c = '\t' || c = '\n' || c = '\r' || c = Char.ofNat 11 || c = Char.ofNat 12

/-- Strip leading and trailing whitespace. -/
def trimChars (cs : List Char) : List Char :=
  ((cs.dropWhile isPySpace).reverse.dropWhile isPySpace).reverse

/-- Numeric value of a list of decimal digits. -/
def charsToNat (cs : List Char) : Nat :=
  cs.foldl (fun a c => 10 * a + (c.toNat - 48)) 0

/-- Model of Python `int(v)` on a string: optional surrounding whitespace,
optional sign, then one or more decimal digits; `none` when `int` would
raise `ValueError`. -/
def pyParseInt (s : String) : Option Int :=
  match trimChars s.data with
  | '-' :: ds =>
      if !ds.isEmpty && ds.all Char.isDigit then some (-(charsToNat ds : Int)) else none
  | '+' :: ds =>
      if !ds.isEmpty && ds.all Char.isDigit then some (charsToNat ds : Int) else none
  | ds =>
      if !ds.isEmpty && ds.all Char.isDigit then some (charsToNat ds : Int) else none

/-- Mantissa of a float literal: `digits`, `digits.digits`, `.digits` or
`digits.` with at least one digit overall. -/
def mantissaOk (m : List Char) : Bool :=
  match m.dropWhile Char.isDigit with
  | [] => !m.isEmpty
  | '.' :: b => (!(m.takeWhile Char.isDigit).isEmpty || !b.isEmpty) && b.all Char.isDigit
  | _ => false

/-- Exponent part of a float literal: optional sign then one or more digits. -/
def expOk : List Char → Bool
  | '+' :: ds => !ds.isEmpty && ds.all Char.isDigit
  | '-' :: ds => !ds.isEmpty && ds.all Char.isDigit
  | ds => !ds.isEmpty && ds.all Char.isDigit

/-- Body of a float literal after sign stripping and lowercasing:
`mantissa` optionally followed by `e exponent`. -/
def pyFloatBody (t : List Char) : Bool :=
  match t.dropWhile (fun c => c ≠ 'e') with
  | [] => mantissaOk t
  | _ :: e => mantissaOk (t.takeWhile (fun c => c ≠ 'e')) && expOk e

/-- Model of Python `float(v)` succeeding on a string: optional
whitespace and sign, then a float literal, `inf`, `infinity` or `nan`
(case insensitive); `false` when `float` would raise `ValueError`. -/
def pyFloatParses (s : String) : Bool :=
  let t := trimChars s.data
  let t2 := match t with
    | '+' :: r => r
    | '-' :: r => r
    | r => r
  let low := t2.map Char.toLower
  low = "inf".data || low = "infinity".data || low = "nan".data || pyFloatBody low

/-! ## `API._munge_dict` (api.py lines 152-180) -/

/-- Value coercion performed by `API._munge_dict` for one dictionary
entry, in the order the code executes it: try `int(v)`, on `ValueError`
try `float(v)`, on `ValueError` keep the string; afterwards an empty
input string overrides the result with `None`. -/
def mungeVal (v : String) : PyVal :=
  let coerced :=
    match pyParseInt v with
    | some n => PyVal.vInt n
    | none => if pyFloatParses v then PyVal.vFloat v else PyVal.vStr v
  if v = "" then PyVal.vNone else coerced

/-- Embedding of `API._munge_dict`: coerce every value of the row. -/
def munge_dict (row : List (String × String)) : List (String × PyVal) :=
  row.map (fun kv => (kv.1, mungeVal kv.2))

/-- The coercion exactly as the specification words it (§4.1, §8): the
empty string is the null marker regardless of the parse attempts;
otherwise integer parse first, then float parse, else the string
unchanged. -/
def specCoerce (v : String) : PyVal :=
  if v = "" then PyVal.vNone
  else
    match pyParseInt v with
    | some n => PyVal.vInt n
    | none => if pyFloatParses v then PyVal.vFloat v else PyVal.vStr v

theorem mungeVal_eq_specCoerce (v : String) : mungeVal v = specCoerce v := by
  unfold mungeVal specCoerce
  by_cases h : v = "" <;> simp [h]

/-- C1: `_munge_dict` coerces each value by attempting an integer parse,
then a float parse, then leaves the string unchanged, and maps every
empty raw value to the null marker `None`, exactly as the spec orders
these steps; in particular every key bound to `""` in the input row is
bound to `None` in the output. -/
theorem munge_dict_matches_spec :
    (∀ row : List (String × String),
      munge_dict row = row.map (fun kv => (kv.1, specCoerce kv.2))) ∧
    (∀ (row : List (String × String)) (k : String),
      (k, "") ∈ row → (k, PyVal.vNone) ∈ munge_dict row) := by
  constructor
  · intro row
    unfold munge_dict
    exact List.map_congr_left (fun kv _ => by rw [mungeVal_eq_specCoerce])
  · intro row k hk
    unfold munge_dict
    exact List.mem_map.mpr ⟨(k, ""), hk, by simp [mungeVal]⟩

theorem munge_dict_matches_spec_witness :
    (PyVal.vNone = PyVal.vNone) ∧
    ("teq", PyVal.vNone) ∈ munge_dict [("kepid", "666"), ("teq", "")] :=
  ⟨rfl, munge_dict_matches_spec.2 [("kepid", "666"), ("teq", "")] "teq" (by decide)⟩

/-! ## Errors raised by api.py -/

/-- The exceptions `api.py` raises: `APIError(code, url, txt)` for
transport/application failures, `ValueError(msg)` for not-found and
invalid-input, plus the `IndexError`/`AttributeError` Python would raise
on degenerate data. -/
inductive PyErr where
  | apiError (code : Nat) (url : String) (txt : String)
  | valueError (msg : String)
  | indexError
  | attributeError
deriving DecidableEq

/-! ## Model of `urllib.quote_plus` / `urllib.urlencode` (Python 2) -/

/-- Characters `urllib.quote` never escapes (Python 2 `always_safe`). -/
def alwaysSafe (c : Char) : Bool :=
  c.isAlpha || c.isDigit || c = '_' || c = '.' || c = '-'

/-- Upper-case hexadecimal digit. -/
def hexDigit (n : Nat) : Char :=
  if n < 10 then Char.ofNat (48 + n) else Char.ofNat (55 + n)

/-- Percent-escape of one character; the code only ever sends ASCII, so
the byte is the code point mod 256. -/
def pctEncodeChar (c : Char) : List Char :=
  let n := c.toNat % 256
  ['%', hexDigit (n / 16), hexDigit (n % 16)]

/-- `urllib.quote(s, safe)`. -/
def quote (s : String) (safe : List Char) : String :=
  String.mk (s.data.foldr
    (fun c acc => (if alwaysSafe c || safe.contains c then [c] else pctEncodeChar c) ++ acc) [])

/-- `urllib.quote_plus(s, safe)`: like `quote` but spaces become `+`. -/
def quote_plus (s : String) (safe : List Char) : String :=
  if s.data.contains ' ' then
    String.mk ((quote s (safe ++ [' '])).data.map (fun c => if c = ' ' then '+' else c))
  else quote s safe

/-- Join strings with a separator (`sep.join(...)` / `urlencode`). -/
def joinWith (sep : String) : List String → String
  | [] => ""
  | [x] => x
  | x :: y :: ys => x ++ sep ++ joinWith sep (y :: ys)

/-- `urllib.urlencode(params)`: `quote_plus` with an empty safe set on
both keys and values, joined by `&`. -/
def urlencode (params : List (String × String)) : String :=
  joinWith "&" (params.map (fun kv => quote_plus kv.1 [] ++ "=" ++ quote_plus kv.2 []))

/-! ## Python dict operations on association lists -/

/-- `d[k] = v` on a dict: replace any binding of `k`, the updated
binding living at the end of the association list. -/
def setKey (d : List (String × String)) (k v : String) : List (String × String) :=
  d.filter (fun kv => kv.1 != k) ++ [(k, v)]

/-! ## Model of the Python string-splitting builtins -/

/-- Does `pat` occur at the start of `cs`? (`str.startswith`). -/
def startsWithChars : List Char → List Char → Bool
  | _, [] => true
  | [], _ :: _ => false
  | c :: cs, p :: ps => c = p && startsWithChars cs ps

/-- Python `pat in s` substring test. -/
def containsSubAux (pat : List Char) : List Char → Bool
  | [] => startsWithChars [] pat
  | c :: cs => startsWithChars (c :: cs) pat || containsSubAux pat cs

/-- Python `pat in s` substring test on strings. -/
def hasSubstr (s pat : String) : Bool := containsSubAux pat.data s.data

/-- Python `str.splitlines()`: each `\n`, `\r` or `\r\n` ends a line, a
final newline does not open an empty last line. -/
def splitlinesAux : List Char → List Char → List String
  | acc, [] => if acc.isEmpty then [] else [String.mk acc.reverse]
  | acc, '\n' :: cs => String.mk acc.reverse :: splitlinesAux [] cs
  | acc, ['\r'] => [String.mk acc.reverse]
  | acc, '\r' :: '\n' :: cs => String.mk acc.reverse :: splitlinesAux [] cs
  | acc, '\r' :: c :: cs => String.mk acc.reverse :: splitlinesAux [] (c :: cs)
  | acc, c :: cs => splitlinesAux (c :: acc) cs

/-- Python `str.splitlines()`. -/
def splitlines (s : String) : List String := splitlinesAux [] s.data

/-- Python `str.split(",")` (`"".split(",") = [""]`). -/
def splitCommaAux : List Char → List Char → List String
  | acc, [] => [String.mk acc.reverse]
  | acc, ',' :: cs => String.mk acc.reverse :: splitCommaAux [] cs
  | acc, c :: cs => splitCommaAux (c :: acc) cs

/-- Python `str.split(",")` on strings. -/
def splitComma (s : String) : List String := splitCommaAux [] s.data

/-! ## `API.ea_request` (api.py lines 56-101) -/

/-- `API.ea_url`. -/
def eaUrl : String :=
  "http://exoplanetarchive.ipac.caltech.edu/cgi-bin/nstedAPI/nph-nstedAPI"

/-- The `sort` argument of the request methods: absent, a plain column
name, or a `(column, direction)` pair with `-1` meaning descending. -/
inductive SortArg where
  | none
  | col (s : String)
  | colDir (s : String) (dir : Int)

/-- The `sort` handling of `ea_request`: set `params["order"]`,
appending `+desc` for descending sorts. -/
def applySortEA (params : List (String × String)) : SortArg → List (String × String)
  | .none => params
  | .col s => setKey params "order" s
  | .colDir s d => setKey params "order" (if d = -1 then s ++ "+desc" else s)

/-- The safe characters `ea_request` hands to `quote_plus`. -/
def eaSafe : List Char := ['"', Char.ofNat 39, '+']

/-- The request body/query string `"&".join("{k}={quote_plus(v)}")`. -/
def eaPayload (params : List (String × String)) : String :=
  joinWith "&" (params.map (fun kv => kv.1 ++ "=" ++ quote_plus kv.2 eaSafe))

/-- An HTTP exchange as seen by the code: status code, the URL the
handler reports (`handler.geturl()`) and the body text. -/
structure HttpResp where
  code : Nat
  geturl : String
  body : String
deriving DecidableEq

/-- One row of typed record data. -/
abbrev RecRow := List (String × PyVal)

/-- The CSV parse of `ea_request`: `csv = txt.splitlines()`,
`columns = csv[0].split(",")`, then one dict per remaining line by
zipping the columns with the comma-split line (`csv[0]` on an empty
response is Python `IndexError`). -/
def parseCSV (txt : String) : Except PyErr (List (List (String × String))) :=
  match splitlines txt with
  | [] => .error .indexError
  | header :: rows =>
      let columns := splitComma header
      .ok (rows.map (fun line => columns.zip (splitComma line)))

/-- Embedding of `API.ea_request`: set `params["table"]`, apply the sort
argument, then fail with `APIError(code, geturl + "?" + payload, txt)`
unless the status is 200 and the body is free of the `"ERROR"` marker;
on success parse the CSV body and munge every row. -/
def ea_request (table : String) (sort : SortArg) (params : List (String × String))
    (resp : HttpResp) : Except PyErr (List RecRow) :=
  let ps := applySortEA (setKey params "table" table) sort
  if resp.code ≠ 200 || hasSubstr resp.body "ERROR" then
    .error (.apiError resp.code (resp.geturl ++ "?" ++ eaPayload ps) resp.body)
  else
    (parseCSV resp.body).map (fun rows => rows.map munge_dict)

/-- C4: an Exoplanet Archive response with HTTP status 200 whose body
contains the `"ERROR"` marker makes `ea_request` fail with an
application-level `APIError` carrying the status code, the fully
reconstructed URL (endpoint plus encoded parameters) and the complete
body text. -/
theorem ea_request_error_marker (table : String) (sort : SortArg)
    (params : List (String × String)) (resp : HttpResp)
    (hcode : resp.code = 200) (hmark : hasSubstr resp.body "ERROR" = true) :
    ea_request table sort params resp =
      .error (.apiError 200
        (resp.geturl ++ "?" ++ eaPayload (applySortEA (setKey params "table" table) sort))
        resp.body) := by
  unfold ea_request
  simp [hcode, hmark]

theorem ea_request_error_marker_witness :
    ea_request "cumulative" SortArg.none [("where", "kepid like 10")]
        ⟨200, eaUrl, "ERROR<br> Error Type: UserError"⟩ =
      .error (.apiError 200
        (eaUrl ++ "?" ++ eaPayload (applySortEA
          (setKey [("where", "kepid like 10")] "table" "cumulative") SortArg.none))
        "ERROR<br> Error Type: UserError") :=
  ea_request_error_marker "cumulative" SortArg.none [("where", "kepid like 10")]
    ⟨200, eaUrl, "ERROR<br> Error Type: UserError"⟩ rfl (by decide)

/-! ## `API.mast_request` (api.py lines 103-150) -/

/-- `API.mast_url.format(category)`. -/
def mastUrl (category : String) : String :=
  "http://archive.stsci.edu/kepler/" ++ category ++ "/search.php"

/-- A MAST HTTP exchange: status code, reported URL, body text, and the
result of `json.loads(txt)` — `none` when the body is not JSON, else the
decoded list of string rows. -/
structure MastResp where
  code : Nat
  geturl : String
  body : String
  json : Option (List (List (String × String)))

/-- The `sort` handling of `mast_request`: set `ordercolumn1`, plus
`descending1=on` for a descending pair. -/
def applySortMast (params : List (String × String)) : SortArg → List (String × String)
  | .none => params
  | .col s => setKey params "ordercolumn1" s
  | .colDir s d =>
      if d = -1 then setKey (setKey params "ordercolumn1" s) "descending1" "on"
      else setKey params "ordercolumn1" s

/-- Parameter preparation of `mast_request`: keep a caller-supplied
`action` (default `Search`), force `outputformat`, `coordformat` and
`verb`, then apply the sort argument. -/
def mastPrepare (params : List (String × String)) (sort : SortArg) :
    List (String × String) :=
  applySortMast
    (setKey (setKey (setKey
      (setKey params "action" ((params.lookup "action").getD "Search"))
      "outputformat" "JSON") "coordformat" "dec") "verb" "3")
    sort

/-- Embedding of `API.mast_request` with an adapter (every caller in
`api.py` under study passes one): non-200 is an `APIError`; a body that
fails to decode as JSON is an `APIError` with the
`"No JSON object could be decoded."` prefix; otherwise apply the adapter
to every decoded row. -/
def mast_request {α : Type} (adapter : List (String × String) → α)
    (sort : SortArg) (params : List (String × String)) (resp : MastResp) :
    Except PyErr (List α) :=
  let ps := mastPrepare params sort
  if resp.code ≠ 200 then
    .error (.apiError resp.code (resp.geturl ++ "?" ++ urlencode ps) resp.body)
  else
    match resp.json with
    | none => .error (.apiError resp.code (resp.geturl ++ "?" ++ urlencode ps)
        ("No JSON object could be decoded.\n" ++ resp.body))
    | some rows => .ok (rows.map adapter)

/-! ## Record instances and their lazy relationship caches

A `Model` instance holds the munged parameter row; the `_star` / `_koi`
/ `_kois` attributes initialised to `None` by the constructors become
`Option`-valued cache fields.  `KOI` and `Star` reference one another,
hence the mutual declaration. -/

mutual
inductive KOIInst : Type where
  | mk : List (String × PyVal) → Option StarInst → KOIInst
inductive StarInst : Type where
  | mk : List (String × PyVal) → Option (List KOIInst) → StarInst
end

/-- A `Planet` instance: parameter row plus the `_koi` and `_star` caches. -/
inductive PlanetInst : Type where
  | mk : List (String × PyVal) → Option KOIInst → Option StarInst → PlanetInst

/-- The parameter row of a `KOI` instance. -/
def KOIInst.params : KOIInst → List (String × PyVal)
  | .mk ps _ => ps

/-- The `_star` cache of a `KOI` instance. -/
def KOIInst.starCache : KOIInst → Option StarInst
  | .mk _ c => c

/-- The parameter row of a `Star` instance. -/
def StarInst.params : StarInst → List (String × PyVal)
  | .mk ps _ => ps

/-- The `_kois` cache of a `Star` instance. -/
def StarInst.koisCache : StarInst → Option (List KOIInst)
  | .mk _ c => c

/-! ## KOI lookups on the Exoplanet Archive (api.py lines 182-206) -/

/-- `API.kois(**params)`: run `ea_request("cumulative", ...)` and wrap
every row in a `KOI` instance with an empty `_star` cache. -/
def API.kois (params : List (String × String)) (resp : HttpResp) :
    Except PyErr (List KOIInst) :=
  (ea_request "cumulative" SortArg.none params resp).map
    (fun rows => rows.map (fun r => KOIInst.mk r none))

/-- `"K{0:08.2f}".format(float(koi_number))`, modelled on the decimal
literal of the number: pad it on the left with zeros to width 8. -/
def padLeftZeros (w : Nat) (s : String) : String :=
  if s.length < w then String.mk (List.replicate (w - s.length) '0' ++ s.data) else s

/-- The `where` filter `koi` sends:
`"kepoi_name+like+'K{0:08.2f}'".format(float(koi_number))`. -/
def koiWhere (koiNumber : PyVal) : String :=
  "kepoi_name+like+" ++ sq ++ "K" ++ padLeftZeros 8 (pyValStr koiNumber) ++ sq

/-- Embedding of `API.koi`: search the cumulative table for the KOI
number; zero rows raise
`ValueError("No KOI found with the number: '{0}'")`, else the first hit
is returned. -/
def API.koi (koiNumber : PyVal) (resp : HttpResp) : Except PyErr KOIInst :=
  match API.kois [("where", koiWhere koiNumber)] resp with
  | .error e => .error e
  | .ok [] => .error (.valueError
      ("No KOI found with the number: " ++ sq ++ pyValStr koiNumber ++ sq))
  | .ok (k :: _) => .ok k

/-! ## Star lookups on MAST (api.py lines 241-267) -/

/-- The `max_records` handling of `API.stars`:
`params["max_records"] = params.pop("max_records", 100)`. -/
def starsParams (params : List (String × String)) : List (String × String) :=
  setKey params "max_records" ((params.lookup "max_records").getD "100")

/-- `API.stars(**params)`: search `kic10` through the star adapter and
wrap every record in a `Star` instance with an empty `_kois` cache. -/
def API.stars (adapter : List (String × String) → List (String × PyVal))
    (params : List (String × String)) (resp : MastResp) :
    Except PyErr (List StarInst) :=
  (mast_request adapter SortArg.none (starsParams params) resp).map
    (fun rows => rows.map (fun r => StarInst.mk r none))

/-- Embedding of `API.star`: search `kic10` for the catalog id with
`max_records=1`; zero rows raise
`ValueError("No KIC target found with id: '{0}'")`. -/
def API.star (adapter : List (String × String) → List (String × PyVal))
    (kepid : PyVal) (resp : MastResp) : Except PyErr StarInst :=
  match API.stars adapter
      [("kic_kepler_id", pyValStr kepid), ("max_records", "1")] resp with
  | .error e => .error e
  | .ok [] => .error (.valueError
      ("No KIC target found with id: " ++ sq ++ pyValStr kepid ++ sq))
  | .ok (s :: _) => .ok s

/-- C5: a single-entity lookup whose remote search returns zero rows
raises a `ValueError` not-found carrying the identifier searched for —
both for `koi` and for `star` — and this outcome is a different error
kind from the transport/application `APIError` and is not an `ok`
result at all (so it can never be confused with an empty list). -/
theorem single_lookup_not_found (koiNumber : PyVal) (respE : HttpResp)
    (adapter : List (String × String) → List (String × PyVal))
    (kepid : PyVal) (respM : MastResp)
    (hE : API.kois [("where", koiWhere koiNumber)] respE = .ok [])
    (hM : API.stars adapter
      [("kic_kepler_id", pyValStr kepid), ("max_records", "1")] respM = .ok []) :
    API.koi koiNumber respE = .error (.valueError
      ("No KOI found with the number: " ++ sq ++ pyValStr koiNumber ++ sq)) ∧
    API.star adapter kepid respM = .error (.valueError
      ("No KIC target found with id: " ++ sq ++ pyValStr kepid ++ sq)) ∧
    (∀ m c u t, PyErr.valueError m ≠ PyErr.apiError c u t) ∧
    (∀ k, API.koi koiNumber respE ≠ .ok k) ∧
    (∀ s, API.star adapter kepid respM ≠ .ok s) := by
  refine ⟨?_, ?_, ?_, ?_, ?_⟩
  · unfold API.koi
    rw [hE]
  · unfold API.star
    rw [hM]
  · intro m c u t h
    exact PyErr.noConfusion h
  · intro k h
    unfold API.koi at h
    rw [hE] at h
    exact Except.noConfusion h
  · intro s h
    unfold API.star at h
    rw [hM] at h
    exact Except.noConfusion h

theorem single_lookup_not_found_witness :
    API.koi (PyVal.vFloat "145.01") ⟨200, eaUrl, "kepid,kepoi_name"⟩ =
      .error (.valueError
        ("No KOI found with the number: " ++ sq ++ "145.01" ++ sq)) ∧
    API.star (fun _ => []) (PyVal.vInt 9787239) ⟨200, mastUrl "kic10", "[]", some []⟩ =
      .error (.valueError
        ("No KIC target found with id: " ++ sq ++ "9787239" ++ sq)) := by
  have h := single_lookup_not_found (PyVal.vFloat "145.01")
    ⟨200, eaUrl, "kepid,kepoi_name"⟩ (fun _ => []) (PyVal.vInt 9787239)
    ⟨200, mastUrl "kic10", "[]", some []⟩ rfl rfl
  exact ⟨h.1, h.2.1⟩

/-! ## Planet lookups on MAST (api.py lines 208-239) -/

/-- A `Planet` instance with empty caches, as built by `API.planets`. -/
def mkPlanet (r : List (String × PyVal)) : PlanetInst := PlanetInst.mk r none none

/-- `API.planets(**params)`: search `confirmed_planets` through the
planet adapter and wrap every record in a `Planet` instance. -/
def API.planets (adapter : List (String × String) → List (String × PyVal))
    (params : List (String × String)) (resp : MastResp) :
    Except PyErr (List PlanetInst) :=
  (mast_request adapter SortArg.none params resp).map (fun rows => rows.map mkPlanet)

/-- Separator characters of the planet-name pattern, `[-\s]`. -/
def isSepChar (c : Char) : Bool :=
  c = '-' || c = ' ' || c = '\t' || c = '\n' || c = '\r' || c = Char.ofNat 11 || c = Char.ofNat 12

/-- ASCII letter, `[a-zA-Z]`. -/
def isAsciiLetter (c : Char) : Bool := c.isAlpha

/-- One attempt to match `([0-9]+)[-\s]*([a-zA-Z])` at the head of the
input: a maximal digit run, a maximal separator run, then a letter;
returns the captured (digits, letter) pair and the unconsumed rest.
Maximal munch is equivalent to the backtracking regex here, because a
shorter digit or separator run leaves a digit or separator where the
letter must be. -/
def matchAt (cs : List Char) : Option ((String × Char) × List Char) :=
  let ds := cs.takeWhile Char.isDigit
  if ds.isEmpty then none
  else
    match (cs.dropWhile Char.isDigit).dropWhile isSepChar with
    | [] => none
    | c :: rest => if isAsciiLetter c then some ((String.mk ds, c), rest) else none

/-- `re.findall("([0-9]+)[-\s]*([a-zA-Z])", name)`: scan left to right,
collecting non-overlapping matches; on failure advance one character.
The fuel is the input length, which suffices because every step consumes
at least one character. -/
def findallAux : Nat → List Char → List (String × Char)
  | 0, _ => []
  | _ + 1, [] => []
  | fuel + 1, c :: cs =>
      match matchAt (c :: cs) with
      | some (p, rest) => p :: findallAux fuel rest
      | none => findallAux fuel cs

/-- `re.findall("([0-9]+)[-\s]*([a-zA-Z])", name)` on a string. -/
def findall (name : String) : List (String × Char) :=
  findallAux name.data.length name.data

/-- The canonical Kepler name `"Kepler-{0} {1}".format(*(matches[0]))`. -/
def keplerName (digits : String) (letter : Char) : String :=
  "Kepler-" ++ digits ++ " " ++ String.mk [letter]

/-- The part of `API.planet` after name canonicalisation: query
`confirmed_planets` for the canonical name with `max_records=1`; zero
rows raise `ValueError("No planet found with the name: '{0}'")`. -/
def planetLookup (adapter : List (String × String) → List (String × PyVal))
    (kName : String) (resp : MastResp) : Except PyErr PlanetInst :=
  match API.planets adapter [("kepler_name", kName), ("max_records", "1")] resp with
  | .error e => .error e
  | .ok [] => .error (.valueError
      ("No planet found with the name: " ++ sq ++ kName ++ sq))
  | .ok (p :: _) => .ok p

/-- Embedding of `API.planet`: extract the (digits, letter) pairs of the
name; anything but exactly one match raises
`ValueError("Invalid planet name '{0}'")` before the query; one match is
canonicalised and looked up. -/
def API.planet (adapter : List (String × String) → List (String × PyVal))
    (name : String) (resp : MastResp) : Except PyErr PlanetInst :=
  match findall name with
  | [(digits, letter)] => planetLookup adapter (keplerName digits letter) resp
  | _ => .error (.valueError ("Invalid planet name " ++ sq ++ name ++ sq))

/-- C6: the planet lookup pattern-matches (digit-group, letter) pairs;
exactly one match canonicalises the name (so `"6b"` becomes
`"Kepler-6 b"`) before the query, while zero or several matches fail
with the invalid-name `ValueError` whatever the remote service would
answer — i.e. before any network request — and that message is distinct
from every not-found message. -/
theorem planet_name_parsing (name : String)
    (adapter : List (String × String) → List (String × PyVal)) (resp : MastResp) :
    ((findall name).length ≠ 1 →
      ∀ resp2 : MastResp, API.planet adapter name resp2 =
        .error (.valueError ("Invalid planet name " ++ sq ++ name ++ sq))) ∧
    (∀ digits letter, findall name = [(digits, letter)] →
      API.planet adapter name resp = planetLookup adapter (keplerName digits letter) resp) ∧
    findall "6b" = [("6", 'b')] ∧
    keplerName "6" 'b' = "Kepler-6 b" ∧
    (∀ other, PyErr.valueError ("Invalid planet name " ++ sq ++ name ++ sq) ≠
      PyErr.valueError ("No planet found with the name: " ++ sq ++ other ++ sq)) := by
  refine ⟨?_, ?_, by decide, rfl, ?_⟩
  · intro hlen resp2
    unfold API.planet
    match hf : findall name with
    | [] => rfl
    | [(d, c)] => rw [hf] at hlen; simp at hlen
    | (d1, c1) :: (d2, c2) :: rest => rfl
  · intro digits letter hf
    unfold API.planet
    rw [hf]
  · intro other h
    have hdata : ("Invalid planet name " ++ sq ++ name ++ sq).data =
        ("No planet found with the name: " ++ sq ++ other ++ sq).data := by
      injection h with h2
      rw [h2]
    have hhead := congrArg List.head? hdata
    simp [sq, String.data] at hhead

theorem planet_name_parsing_witness :
    API.planet (fun _ => []) "62" ⟨200, mastUrl "confirmed_planets", "[]", some []⟩ =
      .error (.valueError ("Invalid planet name " ++ sq ++ "62" ++ sq)) ∧
    API.planet (fun _ => []) "6b" ⟨200, mastUrl "confirmed_planets", "[]", some []⟩ =
      planetLookup (fun _ => []) (keplerName "6" 'b')
        ⟨200, mastUrl "confirmed_planets", "[]", some []⟩ := by
  have h1 := planet_name_parsing "62" (fun _ => [])
    ⟨200, mastUrl "confirmed_planets", "[]", some []⟩
  have h2 := planet_name_parsing "6b" (fun _ => [])
    ⟨200, mastUrl "confirmed_planets", "[]", some []⟩
  exact ⟨h1.1 (by decide) _, h2.2.1 "6" 'b' (by decide)⟩

/-! ## Lazy relationship accessors (api.py lines 465-541)

Each property reads `self._x`; when it is `None` it runs one query with
a key taken from the instance's own parameter row, stores the result in
the cache and returns it; otherwise it returns the cache untouched.  The
embedding threads the mutated instance explicitly and counts the
queries issued; a raising query propagates its error (leaving the cache
unset, as in Python).  The query functions receive the attribute value
exactly as the property hands it to the `API` method. -/

/-- `KOI.star`: lazily resolve `api.star(self.kepid)`. -/
def KOIInst.star (query : PyVal → Except PyErr StarInst) :
    KOIInst → (Except PyErr (StarInst × KOIInst)) × Nat
  | .mk ps (some s) => (.ok (s, .mk ps (some s)), 0)
  | .mk ps none =>
      match ps.lookup "kepid" with
      | none => (.error .attributeError, 0)
      | some v =>
          match query v with
          | .error e => (.error e, 1)
          | .ok s => (.ok (s, .mk ps (some s)), 1)

/-- `Planet.koi`: lazily resolve `api.koi(self.koi_number)`. -/
def PlanetInst.koi (query : PyVal → Except PyErr KOIInst) :
    PlanetInst → (Except PyErr (KOIInst × PlanetInst)) × Nat
  | .mk ps (some k) sc => (.ok (k, .mk ps (some k) sc), 0)
  | .mk ps none sc =>
      match ps.lookup "koi_number" with
      | none => (.error .attributeError, 0)
      | some v =>
          match query v with
          | .error e => (.error e, 1)
          | .ok k => (.ok (k, .mk ps (some k) sc), 1)

/-- `Planet.star`: lazily resolve `api.star(self.kepid)`. -/
def PlanetInst.star (query : PyVal → Except PyErr StarInst) :
    PlanetInst → (Except PyErr (StarInst × PlanetInst)) × Nat
  | .mk ps kc (some s) => (.ok (s, .mk ps kc (some s)), 0)
  | .mk ps kc none =>
      match ps.lookup "kepid" with
      | none => (.error .attributeError, 0)
      | some v =>
          match query v with
          | .error e => (.error e, 1)
          | .ok s => (.ok (s, .mk ps kc (some s)), 1)

/-- `Star.kois`: lazily resolve
`api.kois(where="kepid like '{0}'".format(self.kepid))`, where
`Star.__init__` aliased `self.kepid` to `self.kic_kepler_id`. -/
def StarInst.kois (query : PyVal → Except PyErr (List KOIInst)) :
    StarInst → (Except PyErr (List KOIInst × StarInst)) × Nat
  | .mk ps (some ks) => (.ok (ks, .mk ps (some ks)), 0)
  | .mk ps none =>
      match ps.lookup "kic_kepler_id" with
      | none => (.error .attributeError, 0)
      | some v =>
          match query v with
          | .error e => (.error e, 1)
          | .ok ks => (.ok (ks, .mk ps (some ks)), 1)

/-- C7: every relationship accessor, called on an instance whose cache
is empty and whose parameter row holds the needed key, issues exactly
one query at that key's value and stores the result on the instance;
called on an instance whose cache is filled — in particular on the
instance the first call returned — it returns the stored value and
issues no query. -/
theorem lazy_accessor_caching (ps : List (String × PyVal)) (v : PyVal)
    (qs : PyVal → Except PyErr StarInst) (qk : PyVal → Except PyErr KOIInst)
    (ql : PyVal → Except PyErr (List KOIInst))
    (s : StarInst) (k : KOIInst) (ks : List KOIInst) (kc : Option KOIInst)
    (sc : Option StarInst) :
    (ps.lookup "kepid" = some v → qs v = .ok s →
      KOIInst.star qs (.mk ps none) = (.ok (s, .mk ps (some s)), 1)) ∧
    (KOIInst.star qs (.mk ps (some s)) = (.ok (s, .mk ps (some s)), 0)) ∧
    (ps.lookup "koi_number" = some v → qk v = .ok k →
      PlanetInst.koi qk (.mk ps none sc) = (.ok (k, .mk ps (some k) sc), 1)) ∧
    (PlanetInst.koi qk (.mk ps (some k) sc) = (.ok (k, .mk ps (some k) sc), 0)) ∧
    (ps.lookup "kepid" = some v → qs v = .ok s →
      PlanetInst.star qs (.mk ps kc none) = (.ok (s, .mk ps kc (some s)), 1)) ∧
    (PlanetInst.star qs (.mk ps kc (some s)) = (.ok (s, .mk ps kc (some s)), 0)) ∧
    (ps.lookup "kic_kepler_id" = some v → ql v = .ok ks →
      StarInst.kois ql (.mk ps none) = (.ok (ks, .mk ps (some ks)), 1)) ∧
    (StarInst.kois ql (.mk ps (some ks)) = (.ok (ks, .mk ps (some ks)), 0)) := by
  refine ⟨?_, rfl, ?_, rfl, ?_, rfl, ?_, rfl⟩ <;>
    intro hkey hq <;>
    simp only [KOIInst.star, PlanetInst.koi, PlanetInst.star, StarInst.kois, hkey, hq]

theorem lazy_accessor_caching_witness :
    (KOIInst.star (fun _ => .ok (StarInst.mk [] none))
        (.mk [("kepid", PyVal.vInt 9787239)] none) =
      (.ok (StarInst.mk [] none,
        .mk [("kepid", PyVal.vInt 9787239)] (some (StarInst.mk [] none))), 1)) ∧
    (StarInst.kois (fun _ => .ok [])
        (.mk [("kic_kepler_id", PyVal.vInt 9787239)] (some [])) =
      (.ok ([], .mk [("kic_kepler_id", PyVal.vInt 9787239)] (some [])), 0)) := by
  have h := lazy_accessor_caching [("kepid", PyVal.vInt 9787239)] (PyVal.vInt 9787239)
    (fun _ => .ok (StarInst.mk [] none)) (fun _ => .ok (KOIInst.mk [] none))
    (fun _ => .ok []) (StarInst.mk [] none) (KOIInst.mk [] none) [] none none
  have h2 := lazy_accessor_caching [("kic_kepler_id", PyVal.vInt 9787239)]
    (PyVal.vInt 9787239) (fun _ => .ok (StarInst.mk [] none))
    (fun _ => .ok (KOIInst.mk [] none)) (fun _ => .ok []) (StarInst.mk [] none)
    (KOIInst.mk [] none) [] none none
  exact ⟨h.1 rfl rfl, h2.2.2.2.2.2.2.2⟩

/-! ## C8: what an accessor does on zero related records

`KOI.star`, `Planet.koi` and `Planet.star` go through the single-entity
lookups of api.py lines 192-267, whose zero-row `ValueError` they
propagate unchanged.  `Star.kois`, however, goes through `API.kois`,
which returns the plain (possibly empty) list — there is no zero-row
check on that path, contradicting the claim that every accessor
surfaces not-found and never returns an empty placeholder. -/

/-- The query `Star.kois` issues, as wired in api.py line 539:
`self.api.kois(where="kepid like '{0}'".format(self.kepid))`. -/
def starKoisQuery (resp : HttpResp) (v : PyVal) : Except PyErr (List KOIInst) :=
  API.kois [("where", "kepid like " ++ sq ++ pyValStr v ++ sq)] resp

theorem star_kois_returns_empty_list :
    StarInst.kois (starKoisQuery ⟨200, eaUrl, "kepid,kepoi_name"⟩)
        (.mk [("kic_kepler_id", PyVal.vInt 9787239)] none) =
      (.ok ([], .mk [("kic_kepler_id", PyVal.vInt 9787239)] (some [])), 1) ∧
    (StarInst.kois (starKoisQuery ⟨200, eaUrl, "kepid,kepoi_name"⟩)
        (.mk [("kic_kepler_id", PyVal.vInt 9787239)] none)).1 ≠
      .error (.valueError
        ("No KIC target found with id: " ++ sq ++ "9787239" ++ sq)) :=
  ⟨rfl, fun h => Except.noConfusion h⟩

/-- C8 (amended): an accessor that resolves through a single-entity
lookup propagates that lookup's error — in particular its zero-row
not-found `ValueError` — without catching it and without touching the
cache, whereas `Star.kois` stores and returns whatever list `API.kois`
produces, the empty list included. -/
theorem accessor_zero_records_amended (ps : List (String × PyVal)) (v : PyVal)
    (e : PyErr) (qs : PyVal → Except PyErr StarInst)
    (qk : PyVal → Except PyErr KOIInst) (ql : PyVal → Except PyErr (List KOIInst))
    (kc : Option KOIInst) (sc : Option StarInst) :
    (ps.lookup "kepid" = some v → qs v = .error e →
      KOIInst.star qs (.mk ps none) = (.error e, 1) ∧
      PlanetInst.star qs (.mk ps kc none) = (.error e, 1)) ∧
    (ps.lookup "koi_number" = some v → qk v = .error e →
      PlanetInst.koi qk (.mk ps none sc) = (.error e, 1)) ∧
    (ps.lookup "kic_kepler_id" = some v → ql v = .ok [] →
      StarInst.kois ql (.mk ps none) = (.ok ([], .mk ps (some [])), 1)) := by
  refine ⟨fun hkey hq => ⟨?_, ?_⟩, fun hkey hq => ?_, fun hkey hq => ?_⟩ <;>
    simp only [KOIInst.star, PlanetInst.koi, PlanetInst.star, StarInst.kois, hkey, hq]

theorem accessor_zero_records_amended_witness :
    KOIInst.star (fun _ => .error (.valueError "nf"))
        (.mk [("kepid", PyVal.vInt 3)] none) = (.error (.valueError "nf"), 1) ∧
    StarInst.kois (fun _ => .ok []) (.mk [("kic_kepler_id", PyVal.vInt 3)] none) =
      (.ok ([], .mk [("kic_kepler_id", PyVal.vInt 3)] (some [])), 1) := by
  have h := accessor_zero_records_amended [("kepid", PyVal.vInt 3)] (PyVal.vInt 3)
    (.valueError "nf") (fun _ => .error (.valueError "nf"))
    (fun _ => .ok (KOIInst.mk [] none)) (fun _ => .ok []) none none
  have h2 := accessor_zero_records_amended [("kic_kepler_id", PyVal.vInt 3)]
    (PyVal.vInt 3) (.valueError "nf") (fun _ => .error (.valueError "nf"))
    (fun _ => .ok (KOIInst.mk [] none)) (fun _ => .ok []) none none
  exact ⟨(h.1 rfl rfl).1, h2.2.2 rfl rfl⟩

/-! ## The data-file cache (`_datafile`, api.py lines 544-666)

A `_datafile` instance is determined by the API's `data_root`, the
per-product constants (`product`, the two cadence suffixes, `filetype`)
and the three record fields the constructor reads.  The file system is a
list of existing paths, the network a function from URL to response,
and `fetch` returns the Python return value (an object, not a path)
together with the new file system and the number of HTTP requests
issued. -/

/-- `str.lower()`. -/
def toLowerStr (s : String) : String := String.mk (s.data.map Char.toLower)

/-- `s[:n]`. -/
def takeStr (n : Nat) (s : String) : String := String.mk (s.data.take n)

/-- State of a `_datafile` instance (`LightCurve` and `TargetPixelFile`
differ only in the three per-product constants). -/
structure Datafile where
  data_root : String
  product : String
  suffixLC : String
  suffixSC : String
  filetype : String
  ktc_kepler_id : Nat
  sci_data_set_name : String
  ktc_target_type : String
deriving DecidableEq

/-- `self.kepid = "{0:09d}".format(int(self.ktc_kepler_id))`. -/
def Datafile.kepid (d : Datafile) : String :=
  padLeftZeros 9 (toString d.ktc_kepler_id)

/-- `self.base_dir = os.path.join(self.api.data_root, "data", self.product, self.kepid)`. -/
def Datafile.base_dir (d : Datafile) : String :=
  d.data_root ++ "/data/" ++ d.product ++ "/" ++ d.kepid

/-- `self._filename = "{0}_{1}{2}".format(sci_data_set_name, suffix, filetype).lower()`
with `suffix = suffixes[int(ktc_target_type != "LC")]`. -/
def Datafile.basename (d : Datafile) : String :=
  toLowerStr (d.sci_data_set_name ++ "_"
    ++ (if d.ktc_target_type = "LC" then d.suffixLC else d.suffixSC) ++ d.filetype)

/-- The `filename` property: `os.path.join(self.base_dir, self._filename)`. -/
def Datafile.filename (d : Datafile) : String :=
  d.base_dir ++ "/" ++ d.basename

/-- The `url` property:
`base_url.format(product, kepid[:4], kepid, _filename)`. -/
def Datafile.url (d : Datafile) : String :=
  "http://archive.stsci.edu/pub/kepler/" ++ d.product ++ "/" ++ takeStr 4 d.kepid
    ++ "/" ++ d.kepid ++ "/" ++ d.basename

/-- A `LightCurve` instance: product constants of api.py lines 650-652. -/
def LightCurve (data_root : String) (kid : Nat) (name ttype : String) : Datafile :=
  ⟨data_root, "lightcurves", "llc", "slc", ".fits", kid, name, ttype⟩

/-- A `TargetPixelFile` instance: product constants of api.py lines 663-665. -/
def TargetPixelFile (data_root : String) (kid : Nat) (name ttype : String) : Datafile :=
  ⟨data_root, "target_pixel_files", "lpd-targ", "spd-targ", ".fits.gz", kid, name, ttype⟩

/-- The Python value `fetch` returns: the `_datafile` object itself, as
distinct from a path string. -/
inductive PyObj where
  | obj (d : Datafile)
  | str (s : String)
deriving DecidableEq

/-- Writing a file: afterwards the path exists (overwriting keeps the
path set unchanged). -/
def fsWrite (fs : List String) (p : String) : List String :=
  if fs.contains p then fs else p :: fs

/-- Embedding of `_datafile.fetch`: if the local file exists and
`clobber` is unset, return `self` at once; otherwise issue one GET to
the remote URL, fail with `APIError(code, url, "")` on a non-200 status,
else write the body to the local path and return `self`.  The result
carries the returned value, the file system afterwards, and how many
HTTP requests were made. -/
def Datafile.fetch (d : Datafile) (clobber : Bool) (fs : List String)
    (net : String → HttpResp) : Except PyErr (PyObj × List String × Nat) :=
  if fs.contains d.filename && !clobber then .ok (.obj d, fs, 0)
  else if (net d.url).code ≠ 200 then .error (.apiError (net d.url).code d.url "")
  else .ok (.obj d, fsWrite fs d.filename, 1)

theorem padLeftZeros_length (w : Nat) (s : String) (h : s.length ≤ w) :
    (padLeftZeros w s).length = w := by
  unfold padLeftZeros
  by_cases hlt : s.length < w
  · simp only [hlt, if_true]
    show (List.replicate (w - s.length) '0' ++ s.data).length = w
    rw [List.length_append, List.length_replicate]
    have : s.data.length = s.length := rfl
    omega
  · simp only [hlt, if_false]
    omega

/-- C2: the local cache path is
`{data_root}/data/{product}/{zero-padded-9-digit-id}/{filename}` and the
remote URL is
`{base}/{product}/{first-4-of-padded-id}/{padded-id}/{filename}`, the
filename being the lower-cased dataset name, cadence-dependent suffix
and per-product filetype; for identifiers of at most nine digits the
padded form has exactly nine characters. -/
theorem datafile_path_and_url (d : Datafile)
    (h9 : (toString d.ktc_kepler_id).length ≤ 9) :
    d.filename = d.data_root ++ "/data/" ++ d.product ++ "/"
      ++ padLeftZeros 9 (toString d.ktc_kepler_id) ++ "/" ++ d.basename ∧
    d.url = "http://archive.stsci.edu/pub/kepler/" ++ d.product ++ "/"
      ++ takeStr 4 (padLeftZeros 9 (toString d.ktc_kepler_id)) ++ "/"
      ++ padLeftZeros 9 (toString d.ktc_kepler_id) ++ "/" ++ d.basename ∧
    d.basename = toLowerStr (d.sci_data_set_name ++ "_"
      ++ (if d.ktc_target_type = "LC" then d.suffixLC else d.suffixSC) ++ d.filetype) ∧
    (padLeftZeros 9 (toString d.ktc_kepler_id)).length = 9 :=
  ⟨rfl, rfl, rfl, padLeftZeros_length 9 _ h9⟩

theorem datafile_path_and_url_witness :
    (LightCurve "/root/.kplr" 9787239 "kplr009787239-2009166043257" "LC").filename =
      "/root/.kplr" ++ "/data/" ++ "lightcurves" ++ "/"
        ++ padLeftZeros 9 (toString 9787239) ++ "/"
        ++ (LightCurve "/root/.kplr" 9787239 "kplr009787239-2009166043257" "LC").basename ∧
    (padLeftZeros 9 (toString 9787239)).length = 9 := by
  have h := datafile_path_and_url
    (LightCurve "/root/.kplr" 9787239 "kplr009787239-2009166043257" "LC") (by decide)
  exact ⟨h.1, h.2.2.2⟩

/-- C3: when the local path already exists and `clobber` is false,
`fetch` returns at once with zero network requests; hence a first fetch
into a file system without the file (one request) followed by a second
fetch performs exactly one request in total. -/
theorem fetch_cached_no_request (d : Datafile) (fs : List String)
    (net : String → HttpResp) (habs : fs.contains d.filename = false)
    (hok : (net d.url).code = 200) :
    (∀ fs2 : List String, fs2.contains d.filename = true →
      Datafile.fetch d false fs2 net = .ok (.obj d, fs2, 0)) ∧
    Datafile.fetch d false fs net = .ok (.obj d, d.filename :: fs, 1) ∧
    Datafile.fetch d false (d.filename :: fs) net = .ok (.obj d, d.filename :: fs, 0) := by
  refine ⟨?_, ?_, ?_⟩
  · intro fs2 h2
    unfold Datafile.fetch
    rw [h2]
    rfl
  · unfold Datafile.fetch fsWrite
    rw [habs, hok, if_neg (by omega : ¬(200 : Nat) ≠ 200)]
    rfl
  · unfold Datafile.fetch
    have hc : (d.filename :: fs).contains d.filename = true := by
      simp [List.contains_cons]
    rw [hc]
    rfl

theorem fetch_cached_no_request_witness :
    Datafile.fetch (LightCurve "/r" 5 "ds" "LC") false [] (fun _ => ⟨200, "", "bytes"⟩) =
      .ok (.obj (LightCurve "/r" 5 "ds" "LC"),
        [(LightCurve "/r" 5 "ds" "LC").filename], 1) ∧
    Datafile.fetch (LightCurve "/r" 5 "ds" "LC") false
        [(LightCurve "/r" 5 "ds" "LC").filename] (fun _ => ⟨200, "", "bytes"⟩) =
      .ok (.obj (LightCurve "/r" 5 "ds" "LC"),
        [(LightCurve "/r" 5 "ds" "LC").filename], 0) := by
  have h := fetch_cached_no_request (LightCurve "/r" 5 "ds" "LC") []
    (fun _ => ⟨200, "", "bytes"⟩) rfl rfl
  exact ⟨h.2.1, h.2.2⟩

/-! ## C9: what `fetch` returns

Both exits of `_datafile.fetch` are `return self` (api.py lines 619 and
640): the method hands back the record object, not the computed local
path.  The spec's `fetch(record, overwrite=false) -> local_path`
contract therefore does not hold as written; what holds is that the
returned record's `filename` is the path at which the file exists after
a successful fetch, and `open()` reads exactly that property. -/

theorem fetch_returns_record_not_path :
    Datafile.fetch (LightCurve "/root/.kplr" 9787239 "kplr009787239-2009166043257" "LC")
        false [(LightCurve "/root/.kplr" 9787239 "kplr009787239-2009166043257" "LC").filename]
        (fun _ => ⟨200, "", ""⟩) =
      .ok (.obj (LightCurve "/root/.kplr" 9787239 "kplr009787239-2009166043257" "LC"),
        [(LightCurve "/root/.kplr" 9787239 "kplr009787239-2009166043257" "LC").filename], 0) ∧
    PyObj.obj (LightCurve "/root/.kplr" 9787239 "kplr009787239-2009166043257" "LC") ≠
      PyObj.str (LightCurve "/root/.kplr" 9787239 "kplr009787239-2009166043257" "LC").filename :=
  ⟨rfl, fun h => PyObj.noConfusion h⟩

/-- C9 (amended): a successful `fetch` returns the data-file record
itself, and afterwards the record's local path `filename` — the path a
subsequent `open()` reads — exists in the file system. -/
theorem fetch_returns_self (d : Datafile) (clobber : Bool) (fs : List String)
    (net : String → HttpResp) (hok : (net d.url).code = 200) :
    ∃ (fs2 : List String) (n : Nat),
      Datafile.fetch d clobber fs net = .ok (.obj d, fs2, n) ∧
      fs2.contains d.filename = true := by
  by_cases h : (fs.contains d.filename && !clobber) = true
  · refine ⟨fs, 0, ?_, (Bool.and_eq_true _ _ |>.mp h).1⟩
    unfold Datafile.fetch
    rw [if_pos h]
  · refine ⟨fsWrite fs d.filename, 1, ?_, ?_⟩
    · unfold Datafile.fetch
      rw [if_neg h, hok, if_neg (by omega : ¬(200 : Nat) ≠ 200)]
    · unfold fsWrite
      by_cases hc : fs.contains d.filename = true
      · rw [if_pos hc]
        exact hc
      · rw [if_neg hc]
        simp [List.contains_cons]

theorem fetch_returns_self_witness :
    ∃ (fs2 : List String) (n : Nat),
      Datafile.fetch (TargetPixelFile "/r" 5 "ds" "SC") true [] (fun _ => ⟨200, "", "x"⟩) =
        .ok (.obj (TargetPixelFile "/r" 5 "ds" "SC"), fs2, n) ∧
      fs2.contains (TargetPixelFile "/r" 5 "ds" "SC").filename = true :=
  fetch_returns_self (TargetPixelFile "/r" 5 "ds" "SC") true [] (fun _ => ⟨200, "", "x"⟩) rfl

/-! ## C10: the `max_records` default of `API.stars` -/

theorem setKey_drop_hit (rest : List (String × String)) (kv : String × String)
    (k v : String) (h : kv.1 = k) : setKey (kv :: rest) k v = setKey rest k v := by
  simp [setKey, List.filter_cons, h]

theorem setKey_keep_miss (rest : List (String × String)) (kv : String × String)
    (k v : String) (h : kv.1 ≠ k) : setKey (kv :: rest) k v = kv :: setKey rest k v := by
  simp [setKey, List.filter_cons, bne_iff_ne, h]

theorem setKey_lookup_self (d : List (String × String)) (k v : String) :
    (setKey d k v).lookup k = some v := by
  induction d with
  | nil =>
      show List.lookup k [(k, v)] = some v
      simp [List.lookup]
  | cons kv rest ih =>
      by_cases h : kv.1 = k
      · rw [setKey_drop_hit rest kv k v h]
        exact ih
      · rw [setKey_keep_miss rest kv k v h]
        have hne : (k == kv.1) = false := beq_eq_false_iff_ne.mpr (fun he => h he.symm)
        simpa [List.lookup, hne] using ih

theorem setKey_lookup_ne (d : List (String × String)) (k k2 v : String)
    (h : k2 ≠ k) : (setKey d k v).lookup k2 = d.lookup k2 := by
  induction d with
  | nil =>
      show List.lookup k2 [(k, v)] = List.lookup k2 []
      have hne : (k2 == k) = false := beq_eq_false_iff_ne.mpr h
      simp [List.lookup, hne]
  | cons kv rest ih =>
      by_cases hk : kv.1 = k
      · rw [setKey_drop_hit rest kv k v hk, ih]
        have hne : (k2 == kv.1) = false := by
          rw [hk]
          exact beq_eq_false_iff_ne.mpr h
        simp [List.lookup, hne]
      · rw [setKey_keep_miss rest kv k v hk]
        by_cases h2 : k2 = kv.1
        · have heq : (k2 == kv.1) = true := beq_iff_eq.mpr h2
          simp [List.lookup, heq]
        · have hne : (k2 == kv.1) = false := beq_eq_false_iff_ne.mpr h2
          simpa [List.lookup, hne] using ih

/-- C10: `API.stars` sends `max_records = 100` to the `kic10` search
when the caller supplies none, and passes a caller-supplied value
through unchanged; the fixed parameters `mast_request` injects never
touch that binding. -/
theorem stars_default_max_records (params : List (String × String)) :
    (params.lookup "max_records" = none →
      (starsParams params).lookup "max_records" = some "100") ∧
    (∀ v, params.lookup "max_records" = some v →
      (starsParams params).lookup "max_records" = some v) ∧
    (∀ sort, (mastPrepare (starsParams params) sort).lookup "max_records" =
      (starsParams params).lookup "max_records") := by
  refine ⟨?_, ?_, ?_⟩
  · intro h
    unfold starsParams
    rw [h]
    exact setKey_lookup_self ..
  · intro v h
    unfold starsParams
    rw [h]
    exact setKey_lookup_self ..
  · intro sort
    cases sort with
    | none =>
        simp only [mastPrepare, applySortMast]
        rw [setKey_lookup_ne _ "verb" "max_records" _ (by decide),
          setKey_lookup_ne _ "coordformat" "max_records" _ (by decide),
          setKey_lookup_ne _ "outputformat" "max_records" _ (by decide),
          setKey_lookup_ne _ "action" "max_records" _ (by decide)]
    | col s =>
        simp only [mastPrepare, applySortMast]
        rw [setKey_lookup_ne _ "ordercolumn1" "max_records" _ (by decide),
          setKey_lookup_ne _ "verb" "max_records" _ (by decide),
          setKey_lookup_ne _ "coordformat" "max_records" _ (by decide),
          setKey_lookup_ne _ "outputformat" "max_records" _ (by decide),
          setKey_lookup_ne _ "action" "max_records" _ (by decide)]
    | colDir s dir =>
        simp only [mastPrepare, applySortMast]
        by_cases hd : dir = -1
        · rw [if_pos hd,
            setKey_lookup_ne _ "descending1" "max_records" _ (by decide),
            setKey_lookup_ne _ "ordercolumn1" "max_records" _ (by decide),
            setKey_lookup_ne _ "verb" "max_records" _ (by decide),
            setKey_lookup_ne _ "coordformat" "max_records" _ (by decide),
            setKey_lookup_ne _ "outputformat" "max_records" _ (by decide),
            setKey_lookup_ne _ "action" "max_records" _ (by decide)]
        · rw [if_neg hd,
            setKey_lookup_ne _ "ordercolumn1" "max_records" _ (by decide),
            setKey_lookup_ne _ "verb" "max_records" _ (by decide),
            setKey_lookup_ne _ "coordformat" "max_records" _ (by decide),
            setKey_lookup_ne _ "outputformat" "max_records" _ (by decide),
            setKey_lookup_ne _ "action" "max_records" _ (by decide)]

theorem stars_default_max_records_witness :
    (starsParams [("where", "x")]).lookup "max_records" = some "100" ∧
    (starsParams [("max_records", "500")]).lookup "max_records" = some "500" :=
  ⟨(stars_default_max_records [("where", "x")]).1 rfl,
   (stars_default_max_records [("max_records", "500")]).2.1 "500" rfl⟩

end Kplr
